import Mathlib

/-
Verification development for the IYFFA Django backend.

The definitions below are a shallow embedding of the authentication,
user-management and payment code of the repository:

  * `src/django_rest/models.py`            — the `User` and `Payment` schemas
  * `src/django_rest/views.py`             — login / OTP / password flows,
                                             user update/destroy, the payment
                                             viewset and its webhook
  * `src/django_stripe_payments/views.py`  — the standalone Stripe webhook
                                             handler and cancellation endpoint
  * `src/django_stripe_payments/models.py` — the Stripe app's `Payment` schema

Database tables are lists of records; `save()` is replacement by primary key;
request payloads are `Option String` values (Python `request.data.get` yields
`None` when a key is absent, and `not x` is true for `None` and `""`).
Outcomes of third-party calls that the control flow branches on (email
dispatch success, Stripe signature verification) are boolean parameters.
-/

namespace Iyffa

/-- Account record of the custom `User` model (src/django_rest/models.py,
lines 40-102).  Only the columns read or written by the flows under study are
carried.  `passwordHash` stands for the hashed `password` column;
`otpSecretCreatedAt` is the nullable `otp_secret_created_at` timestamp,
modelled as minutes on an integer timeline. -/
structure User where
  id : Nat
  email : String
  passwordHash : String
  userType : String
  status : Bool
  otpEnabled : Bool
  otpSecret : Option String
  otpSecretCreatedAt : Option Int
  deriving DecidableEq, Repr

/-- Model of the Django password hasher, which lives outside the repository:
`set_password` stores `hashPw p` and `check_password` compares the stored
hash with `hashPw` of the supplied password.  The views rely only on the
hash determining the raw password, which the prefix encoding provides. -/
def hashPw (p : String) : String := "pbkdf2:" ++ p

/-- Model of `user.check_password(password)`. -/
def checkPassword (u : User) (p : String) : Bool := u.passwordHash == hashPw p

/-- Model of `user.set_password(new_password)` on the record. -/
def setPassword (u : User) (p : String) : User := { u with passwordHash := hashPw p }

/-- Python truthiness of a request value that is either a string or `None`:
`not x` holds exactly for `None` and for the empty string. -/
def truthy : Option String → Bool
  | none => false
  | some s => s != ""

/-- Lookup `User.objects.get(email=...)` / `.filter(email=...).first()`:
`none` models `User.DoesNotExist`.  The `email` column is `unique=True`, so
the first match is the account. -/
def findUser (db : List User) (email : String) : Option User :=
  db.find? (fun u => u.email == email)

/-- Lookup by primary key, `User.objects.get(id=...)` / `get_object_or_404`. -/
def findUserById (db : List User) (uid : Nat) : Option User :=
  db.find? (fun u => u.id == uid)

/-- Effect of `user.save()` on the table: replace the row carrying the same
primary key. -/
def updateUser (db : List User) (u : User) : List User :=
  db.map (fun v => if v.id == u.id then u else v)

/-- Token pair minted by `RefreshToken.for_user` of the simplejwt library,
which is outside the repository: the pair is modelled as two strings
determined by the account.  The claims only depend on a pair being issued. -/
def tokensFor (u : User) : String × String :=
  ("access:" ++ u.email, "refresh:" ++ u.email)

/-! ### LoginView (src/django_rest/views.py, lines 899-973) -/

/-- Outcomes of `LoginView.post`.  `noResponse` records a path on which the
function body ends without reaching a `return`, so the Django view returns
`None`.  `tokens` mirrors the token response object at lines 957-967;
`otpRequired` mirrors the response at lines 943-953.  As the source is
written, both of those returns are dead code (see `login`). -/
inductive LoginResult where
  | badRequest
  | invalidCredentials
  | otpRequired (userId : Nat)
  | tokens (access refresh : String) (userId : Nat)
  | noResponse
  deriving DecidableEq, Repr

/-- Shallow embedding of `LoginView.post`.  In the source, the whole
2FA-and-token block (lines 922-967) is indented inside the body of
`if not user.check_password(password):` after its `return` at lines 917-920,
so it is unreachable: a request with a correct password falls off the end of
the function and the view returns `None`.  The table is returned unchanged
because no live path reaches `user.save()`. -/
def login (db : List User) (email? password? : Option String) :
    LoginResult × List User :=
  if ¬ truthy email? ∨ ¬ truthy password? then (.badRequest, db)
  else
    match email? with
    | none => (.badRequest, db)
    | some e =>
      match findUser db e with
      | none => (.invalidCredentials, db)
      | some u =>
        if checkPassword u (password?.getD "") then (.noResponse, db)
        else (.invalidCredentials, db)

/-! ### VerifyOTPView (src/django_rest/views.py, lines 975-1008) -/

/-- Outcomes of `VerifyOTPView.post`: the 200 token response, the 400
`Invalid verification code` response, and the 404 `User not found`
response. -/
inductive OtpResult where
  | tokens (access refresh : String)
  | invalidCode
  | notFound
  deriving DecidableEq, Repr

/-- Shallow embedding of `VerifyOTPView.post`.  The request value `otp` and
the stored `otp_secret` are compared with Python `==`; both may be `None`,
and `None == None` holds, which the `Option String` equality mirrors.  On a
match the used code is cleared before the tokens are returned. -/
def verifyOtp (db : List User) (email? otp? : Option String) :
    OtpResult × List User :=
  match email? with
  | none => (.notFound, db)
  | some e =>
    match findUser db e with
    | none => (.notFound, db)
    | some u =>
      if otp? == u.otpSecret then
        (OtpResult.tokens (tokensFor u).1 (tokensFor u).2,
         updateUser db { u with otpSecret := none })
      else (.invalidCode, db)

/-! ### Enable2FAView (src/django_rest/views.py, lines 1010-1060) -/

/-- Outcomes of `Enable2FAView.post`: 400 when 2FA is already enabled, 200
on success, 500 when the verification email cannot be sent. -/
inductive Enable2FAResult where
  | alreadyEnabled
  | initiated
  | emailFailed
  deriving DecidableEq, Repr

/-- Shallow embedding of `Enable2FAView.post`.  `u` is the authenticated
`request.user`, `otp` the freshly generated 6-digit code (randomness is a
parameter), `emailOk` the outcome of `send_html_email`.  The code is stored
first; when the email fails (or sending raises) the just-stored code is set
to `None` and saved again. -/
def enable2FA (db : List User) (u : User) (otp : String) (emailOk : Bool) :
    Enable2FAResult × List User :=
  if u.otpEnabled then (.alreadyEnabled, db)
  else
    let u1 : User := { u with otpSecret := some otp }
    let db1 := updateUser db u1
    if emailOk then (.initiated, db1)
    else (.emailFailed, updateUser db1 { u with otpSecret := none })

/-! ### ApproveUserView (src/django_rest/views.py, lines 1607-1677) -/

/-- Outcomes of `ApproveUserView.post`. -/
inductive ApproveResult where
  | notFound
  | alreadyActive
  | emailFailed
  | approved
  deriving DecidableEq, Repr

/-- Shallow embedding of `ApproveUserView.post`: looks up the target by id,
rejects already-active accounts, stores a setup token on `otp_secret` (no
issuance timestamp is recorded), emails it — reverting the token to `None`
when the email fails — and activates the account on success. -/
def approveUser (db : List User) (userId : Nat) (token : String)
    (emailOk : Bool) : ApproveResult × List User :=
  match findUserById db userId with
  | none => (.notFound, db)
  | some u =>
    if u.status then (.alreadyActive, db)
    else
      let u1 : User := { u with otpSecret := some token }
      let db1 := updateUser db u1
      if emailOk then
        (.approved, updateUser db1 { u with otpSecret := some token, status := true })
      else (.emailFailed, updateUser db1 { u with otpSecret := none })

/-! ### RequestPasswordResetView (src/django_rest/views.py, lines 1679-1740) -/

/-- Outcomes of `RequestPasswordResetView.post`: the 400 missing-email
response, the generic success message, and the 500 email-failure
response. -/
inductive ResetRequestResult where
  | badRequest
  | generic
  | emailFailed
  deriving DecidableEq, Repr

/-- Shallow embedding of `RequestPasswordResetView.post`.  A missing or
empty email is a 400; an unknown email returns the generic success message
without touching the table; otherwise a reset token and its issuance
timestamp are stored and emailed, both being reverted to `None` when the
email cannot be sent (a 500 response, distinct from the generic
message). -/
def requestPasswordReset (db : List User) (email? : Option String)
    (token : String) (now : Int) (emailOk : Bool) :
    ResetRequestResult × List User :=
  if !truthy email? then (.badRequest, db)
  else
    match email? with
    | none => (.badRequest, db)
    | some e =>
      match findUser db e with
      | none => (.generic, db)
      | some u =>
        let u1 : User :=
          { u with otpSecret := some token, otpSecretCreatedAt := some now }
        let db1 := updateUser db u1
        if emailOk then (.generic, db1)
        else (.emailFailed,
          updateUser db1 { u with otpSecret := none, otpSecretCreatedAt := none })

/-! ### ResetPasswordView / SetupPasswordView (lines 1742-1925) -/

/-- Outcomes shared by `ResetPasswordView.post` and
`SetupPasswordView.post`. -/
inductive PasswordResult where
  | missingFields
  | passwordTooShort
  | passwordNoDigit
  | notFound
  | invalidToken
  | tokenExpired
  | success
  deriving DecidableEq, Repr

/-- Python `any(char.isdigit() for char in s)`. -/
def hasDigit (s : String) : Bool := s.data.any Char.isDigit

/-- Shallow embedding of `ResetPasswordView.post`.  Field presence and
password strength are validated before the account lookup; the stored token
must be truthy and equal to the supplied one; the issuance timestamp must
exist and be at most 30 minutes old (Python
`(timezone.now() - created_at) > timedelta(minutes=30)`), an expired or
absent timestamp clearing the token and failing; on success the password
hash is replaced and token and timestamp are cleared. -/
def resetPassword (db : List User) (email? token? password? : Option String)
    (now : Int) : PasswordResult × List User :=
  if !(truthy email? && truthy token? && truthy password?) then
    (.missingFields, db)
  else
    match email?, token?, password? with
    | some e, some tok, some p =>
      if p.length < 8 then (.passwordTooShort, db)
      else if !hasDigit p then (.passwordNoDigit, db)
      else
        match findUser db e with
        | none => (.notFound, db)
        | some u =>
          if !truthy u.otpSecret || u.otpSecret != some tok then
            (.invalidToken, db)
          else
            match u.otpSecretCreatedAt with
            | none =>
              (.tokenExpired,
                updateUser db { u with otpSecret := none, otpSecretCreatedAt := none })
            | some t0 =>
              if now - t0 > 30 then
                (.tokenExpired,
                  updateUser db { u with otpSecret := none, otpSecretCreatedAt := none })
              else
                (.success,
                  updateUser db
                    { u with
                        passwordHash := hashPw p
                        otpSecret := none
                        otpSecretCreatedAt := none })
    | _, _, _ => (.missingFields, db)

/-- Shallow embedding of `SetupPasswordView.post`.  Identical validation to
the reset view up to the token match, but no expiry check is performed and
`otp_secret_created_at` is not cleared on success. -/
def setupPassword (db : List User) (email? token? password? : Option String) :
    PasswordResult × List User :=
  if !(truthy email? && truthy token? && truthy password?) then
    (.missingFields, db)
  else
    match email?, token?, password? with
    | some e, some tok, some p =>
      if p.length < 8 then (.passwordTooShort, db)
      else if !hasDigit p then (.passwordNoDigit, db)
      else
        match findUser db e with
        | none => (.notFound, db)
        | some u =>
          if !truthy u.otpSecret || u.otpSecret != some tok then
            (.invalidToken, db)
          else
            (.success,
              updateUser db { u with passwordHash := hashPw p, otpSecret := none })
    | _, _, _ => (.missingFields, db)

/-! ### UserViewSet.update / UserViewSet.destroy (views.py, lines 154-258) -/

/-- Error kinds of the user-management endpoints, distinguished by their
response messages: the duplicate-email 400, the at-least-one-admin 400 (the
conflict error of the spec's taxonomy), the self-deletion 400, and the
404. -/
inductive UserErr where
  | emailTaken
  | adminConflict
  | selfDeletion
  | notFound
  deriving DecidableEq, Repr

/-- Update request body: the fields read by the guards of
`UserViewSet.update`.  The remaining serializer fields do not influence the
guarded paths under study. -/
structure UpdateRequest where
  email : Option String
  userType : Option String
  deriving DecidableEq, Repr

/-- Outcome of a user-management endpoint: an error response or a 2xx. -/
inductive UserOpResult where
  | err (e : UserErr)
  | ok
  deriving DecidableEq, Repr

/-- Count of accounts with role `admin`:
`User.objects.filter(user_type='admin').count()`. -/
def adminCount (db : List User) : Nat :=
  (db.filter (fun u => u.userType == "admin")).length

/-- Shallow embedding of `UserViewSet.update`.  The guards run in source
order: duplicate email first, then the sole-admin demotion guard (only when
a truthy `user_type` is supplied, the instance is an admin, the new type is
`user` and at most one admin exists), then the serializer save, modelled as
updating the supplied guarded fields. -/
def userUpdate (db : List User) (targetId : Nat) (req : UpdateRequest) :
    UserOpResult × List User :=
  match findUserById db targetId with
  | none => (.err .notFound, db)
  | some inst =>
    if truthy req.email && (req.email.getD "" != inst.email)
        && db.any (fun v => v.email == req.email.getD "") then
      (.err .emailTaken, db)
    else if truthy req.userType && (inst.userType == "admin")
        && (req.userType.getD "" == "user") && decide (adminCount db ≤ 1) then
      (.err .adminConflict, db)
    else
      let inst' : User :=
        { inst with
            email := if truthy req.email then req.email.getD "" else inst.email
            userType :=
              if truthy req.userType then req.userType.getD "" else inst.userType }
      (.ok, updateUser db inst')

/-- Shallow embedding of `UserViewSet.destroy`.  The only guard is the
self-deletion check `instance == request.user` (Django model equality is
primary-key equality); no admin-count check is performed.  The endpoint is
reachable only through `IsAdminUser`, modelled by the requester hypotheses
of the theorems. -/
def userDestroy (db : List User) (requesterId targetId : Nat) :
    UserOpResult × List User :=
  match findUserById db targetId with
  | none => (.err .notFound, db)
  | some inst =>
    if inst.id == requesterId then (.err .selfDeletion, db)
    else (.ok, db.filter (fun v => v.id != inst.id))

/-! ### Payment schemas -/

/-- Payment record of `django_rest.models.Payment` (models.py, lines
223-272), restricted to the columns the flows read or write.  Amounts are
rationals: Stripe carries integer cents and the webhook records
`payment_intent.amount / 100` with Python true division. -/
structure RPayment where
  stripePaymentId : Option String
  amount : ℚ
  currency : String
  status : String
  paymentType : String
  paymentMethod : Option String
  subscriptionId : Option String
  deriving DecidableEq, Repr

/-- Status choices declared on the `django_rest` Payment model
(`PAYMENT_STATUS_CHOICES`, models.py lines 239-244).  The tuple has four
entries; `canceled` is not among them. -/
def PAYMENT_STATUS_CHOICES : List String :=
  ["pending", "succeeded", "failed", "refunded"]

/-- Status set named by the specification (spec.md §3): five values.  This
definition follows the spec's words, for comparison with the code's
`PAYMENT_STATUS_CHOICES` and with the statuses the handlers write. -/
def specPaymentStatuses : List String :=
  ["pending", "succeeded", "failed", "refunded", "canceled"]

/-- Payment record of `django_stripe_payments.models.Payment`: a separate
table with a mandatory `email` column and an integer `amount` column in
cents — which the one-time branch nevertheless writes as `amount / 100`,
so the field is kept rational. -/
structure SPayment where
  stripePaymentId : String
  amount : ℚ
  currency : String
  status : String
  email : Option String
  paymentType : String
  paymentMethod : Option String
  subscriptionId : Option String
  deriving DecidableEq, Repr

/-- Python `int(...)` on a rational: truncation toward zero, as in
`int(float(setup_intent.metadata.get('amount', 0)) * 100)`. -/
def pyInt (q : ℚ) : Int := q.num.tdiv (q.den : Int)

/-- Amount sent to the processor by `PaymentViewSet.create_intent`
(views.py line 1288): `amount * 100`, in cents. -/
def createIntentCents (amount : ℚ) : ℚ := amount * 100

/-- Observable outcome of one webhook request: the payment table afterward,
the number of confirmation emails dispatched, the number of outbound Stripe
API calls made, and the HTTP status of the response. -/
structure WebhookOutcome (P : Type) where
  payments : List P
  emailsSent : Nat
  stripeCalls : Nat
  httpStatus : Nat
  deriving DecidableEq, Repr

/-! ### PaymentViewSet.webhook (src/django_rest/views.py, lines 1400-1522) -/

/-- Stripe events dispatched by `PaymentViewSet.webhook`.  Payload and
metadata fields are constructor arguments (`Option` models
`metadata.get`); every unrecognized event type is `otherEvent`. -/
inductive RWebhookEvent where
  | setupIntentSucceeded (intentId : String) (amountMeta : ℚ)
      (priceId : Option String) (newSubId : String)
  | paymentIntentSucceeded (intentId : String) (amountCents : ℚ)
      (currency : String) (email : Option String)
      (paymentType : Option String) (methodType : String)
  | subscriptionDeleted (subId : String)
  | otherEvent
  deriving DecidableEq, Repr

/-- Replace the status of the first payment matching the subscription id:
`Payment.objects.filter(subscription_id=sid).first()` followed by a status
write and `save()`; a no-op when nothing matches. -/
def rSetFirstStatus : List RPayment → String → String → List RPayment
  | [], _, _ => []
  | p :: ps, sid, st =>
    if p.subscriptionId == some sid then { p with status := st } :: ps
    else p :: rSetFirstStatus ps sid st

/-- Shallow embedding of `PaymentViewSet.webhook`.  `constructOk` models
`stripe.Webhook.construct_event` (payload parse plus signature check); when
it fails the handler returns 400 before any processing.  In the source the
statement `if payment:` at line 1514 is indented at the level of the
`if/elif` chain, so it also runs after the `payment_intent.succeeded`
branch and after unrecognized events, where the local name `payment` is
unbound: the `NameError` is caught by the broad `except` and answered with
500 — in the `payment_intent.succeeded` case after the payment row was
created and the email sent.  `stripe.PaymentMethod.attach` and
`stripe.Customer.modify` run before the `price_id` check, hence the two
processor calls on that early exit. -/
def rWebhook (ps : List RPayment) (constructOk : Bool) (ev : RWebhookEvent) :
    WebhookOutcome RPayment :=
  if !constructOk then ⟨ps, 0, 0, 400⟩
  else
    match ev with
    | .setupIntentSucceeded intentId amountMeta priceId newSubId =>
      match priceId with
      | none => ⟨ps, 0, 2, 200⟩
      | some _ =>
        let p : RPayment :=
          { stripePaymentId := some intentId
            amount := (pyInt (amountMeta * 100) : ℚ)
            currency := "chf"
            status := "succeeded"
            paymentType := "monthly_donation"
            paymentMethod := some "card"
            subscriptionId := some newSubId }
        ⟨ps ++ [p], 1, 3, 200⟩
    | .paymentIntentSucceeded intentId amountCents currency email paymentType methodType =>
      match email with
      | none => ⟨ps, 0, 0, 200⟩
      | some _ =>
        let p : RPayment :=
          { stripePaymentId := some intentId
            amount := amountCents / 100
            currency := currency
            status := "succeeded"
            paymentType := paymentType.getD "one_time_donation"
            paymentMethod := some methodType
            subscriptionId := none }
        ⟨ps ++ [p], 1, 1, 500⟩
    | .subscriptionDeleted subId =>
      ⟨rSetFirstStatus ps subId "canceled", 0, 0, 200⟩
    | .otherEvent => ⟨ps, 0, 0, 500⟩

/-- Replace the status of the row at a given position of the table, used to
model `payment.save()` after `self.get_object()` retrieved that row by
primary key. -/
def rSetStatusAt : List RPayment → Nat → String → List RPayment
  | [], _, _ => []
  | p :: ps, 0, st => { p with status := st } :: ps
  | p :: ps, i + 1, st => p :: rSetStatusAt ps i st

/-- Shallow embedding of `PaymentViewSet.cancel_subscription` (views.py,
lines 1370-1398) acting on the row at position `i` (the row `get_object`
resolved from the primary key): 400 when the row carries no subscription
id, otherwise the processor is asked to cancel at period end and the row is
marked `canceled` immediately. -/
def rCancelSubscription (ps : List RPayment) (i : Nat) : Nat × List RPayment :=
  match ps[i]? with
  | none => (404, ps)
  | some p =>
    if p.subscriptionId == none then (400, ps)
    else (200, rSetStatusAt ps i "canceled")

/-- One operation touching the `django_rest` payment table. -/
inductive RPayOp where
  | hook (constructOk : Bool) (ev : RWebhookEvent)
  | cancel (idx : Nat)
  deriving DecidableEq, Repr

/-- Table after one `django_rest` payment operation. -/
def rStep (ps : List RPayment) : RPayOp → List RPayment
  | .hook ok ev => (rWebhook ps ok ev).payments
  | .cancel i => (rCancelSubscription ps i).2

/-- Table after a sequence of `django_rest` payment operations. -/
def rRun (ps : List RPayment) : List RPayOp → List RPayment
  | [] => ps
  | op :: ops => rRun (rStep ps op) ops

/-! ### webhook_handler (src/django_stripe_payments/views.py, lines 226-385) -/

/-- Stripe events dispatched by the standalone `webhook_handler`. -/
inductive SWebhookEvent where
  | setupIntentSucceeded (intentId : String) (amountMeta : ℚ)
      (priceId : Option String) (newSubId : String) (email : Option String)
  | invoicePaymentSucceeded (subId : String)
  | subscriptionUpdated (subId : String) (subStatus : String)
  | subscriptionDeleted (subId : String)
  | paymentIntentSucceeded (intentId : String) (amountCents : ℚ)
      (currency : String) (email : Option String)
      (paymentType : Option String) (methodType : String)
  | otherEvent
  deriving DecidableEq, Repr

/-- First-match status replacement on the Stripe app's payment table. -/
def sSetFirstStatus : List SPayment → String → String → List SPayment
  | [], _, _ => []
  | p :: ps, sid, st =>
    if p.subscriptionId == some sid then { p with status := st } :: ps
    else p :: sSetFirstStatus ps sid st

/-- Shallow embedding of `webhook_handler` in the Stripe app.  Signature or
payload failure returns 400 before any processing.  The
`invoice.payment_succeeded` branch writes status `active` and saves, then
builds its confirmation email from `setup_intent.metadata` — a name that is
unbound in that branch — so the `NameError` is caught and answered with 500
after the status write, and no email goes out.  The
`customer.subscription.updated` branch copies the processor-supplied
subscription status verbatim into the row.  Unknown event types fall
through the chain to the final 200. -/
def sWebhook (ps : List SPayment) (constructOk : Bool) (ev : SWebhookEvent) :
    WebhookOutcome SPayment :=
  if !constructOk then ⟨ps, 0, 0, 400⟩
  else
    match ev with
    | .setupIntentSucceeded intentId amountMeta priceId newSubId email =>
      match priceId with
      | none => ⟨ps, 0, 2, 200⟩
      | some _ =>
        let p : SPayment :=
          { stripePaymentId := intentId
            amount := (pyInt (amountMeta * 100) : ℚ)
            currency := "chf"
            status := "succeeded"
            email := email
            paymentType := "monthly_donation"
            paymentMethod := some "card"
            subscriptionId := some newSubId }
        ⟨ps ++ [p], 1, 3, 200⟩
    | .invoicePaymentSucceeded subId =>
      match ps.find? (fun p => p.subscriptionId == some subId) with
      | none => ⟨ps, 0, 0, 200⟩
      | some _ => ⟨sSetFirstStatus ps subId "active", 0, 0, 500⟩
    | .subscriptionUpdated subId st =>
      ⟨sSetFirstStatus ps subId st, 0, 0, 200⟩
    | .subscriptionDeleted subId =>
      ⟨sSetFirstStatus ps subId "canceled", 0, 0, 200⟩
    | .paymentIntentSucceeded intentId amountCents currency email paymentType methodType =>
      match email with
      | none => ⟨ps, 0, 0, 200⟩
      | some _ =>
        let p : SPayment :=
          { stripePaymentId := intentId
            amount := amountCents / 100
            currency := currency
            status := "succeeded"
            email := email
            paymentType := paymentType.getD "one_time_donation"
            paymentMethod := some methodType
            subscriptionId := none }
        ⟨ps ++ [p], 1, 1, 200⟩
    | .otherEvent => ⟨ps, 0, 0, 200⟩

/-- One operation touching the Stripe app's payment table: a webhook
delivery or the `cancel_subscription` endpoint, which marks the first row
matching the subscription id `canceled`. -/
inductive SPayOp where
  | hook (constructOk : Bool) (ev : SWebhookEvent)
  | cancel (subId : String)
  deriving DecidableEq, Repr

/-- Processor-supplied status carried into the table by an operation (only
`customer.subscription.updated` copies one). -/
def SPayOp.carriedStatus : SPayOp → Option String
  | .hook _ (.subscriptionUpdated _ st) => some st
  | _ => none

/-- Table after one Stripe-app payment operation. -/
def sStep (ps : List SPayment) : SPayOp → List SPayment
  | .hook ok ev => (sWebhook ps ok ev).payments
  | .cancel sid => sSetFirstStatus ps sid "canceled"

/-- Table after a sequence of Stripe-app payment operations. -/
def sRun (ps : List SPayment) : List SPayOp → List SPayment
  | [] => ps
  | op :: ops => sRun (sStep ps op) ops

/-- Stripe-app payment fixture for a live monthly subscription. -/
def subPay : SPayment :=
  { stripePaymentId := "seti_1", amount := 2000, currency := "chf",
    status := "succeeded", email := some "a@x.com",
    paymentType := "monthly_donation", paymentMethod := some "card",
    subscriptionId := some "sub_1" }

/-! ### Concrete account fixtures used by closed theorems -/

/-- Account with two-factor disabled and no pending code; password
`pw123456`. -/
def alice : User :=
  { id := 1, email := "alice@x.com", passwordHash := hashPw "pw123456",
    userType := "user", status := true, otpEnabled := false,
    otpSecret := none, otpSecretCreatedAt := none }

/-- Account holding the pending one-time code `123456`. -/
def bob : User :=
  { id := 2, email := "bob@x.com", passwordHash := hashPw "pw7",
    userType := "user", status := true, otpEnabled := true,
    otpSecret := some "123456", otpSecretCreatedAt := none }

/-- Account holding the pending code `654321` with no issuance timestamp,
as the approval flow leaves it. -/
def carol : User :=
  { id := 3, email := "carol@x.com", passwordHash := hashPw "oldpw111",
    userType := "user", status := true, otpEnabled := false,
    otpSecret := some "654321", otpSecretCreatedAt := none }

/-- Account holding the pending code `222333` issued at time 0. -/
def dave : User :=
  { id := 4, email := "dave@x.com", passwordHash := hashPw "oldpw222",
    userType := "user", status := true, otpEnabled := false,
    otpSecret := some "222333", otpSecretCreatedAt := some 0 }

/-- Inactive account with no pending code, awaiting approval. -/
def eve : User :=
  { id := 5, email := "eve@x.com", passwordHash := hashPw "pw0",
    userType := "user", status := false, otpEnabled := false,
    otpSecret := none, otpSecretCreatedAt := none }

/-- Administrator account, the sole admin in the fixtures using it. -/
def admin1 : User :=
  { id := 10, email := "admin@x.com", passwordHash := hashPw "pwadmin1",
    userType := "admin", status := true, otpEnabled := false,
    otpSecret := none, otpSecretCreatedAt := none }

/-! ### Helper lemmas about the table model -/

theorem mem_of_findUser {db : List User} {e : String} {u : User}
    (h : findUser db e = some u) : u ∈ db :=
  List.mem_of_find?_eq_some h

theorem email_of_findUser {db : List User} {e : String} {u : User}
    (h : findUser db e = some u) : u.email = e := by
  have := List.find?_some h
  exact eq_of_beq this

theorem mem_of_findUserById {db : List User} {n : Nat} {u : User}
    (h : findUserById db n = some u) : u ∈ db :=
  List.mem_of_find?_eq_some h

theorem id_of_findUserById {db : List User} {n : Nat} {u : User}
    (h : findUserById db n = some u) : u.id = n := by
  have := List.find?_some h
  exact eq_of_beq this

theorem updateUser_of_not_mem {db : List User} {u : User}
    (h : u.id ∉ db.map User.id) : updateUser db u = db := by
  induction db with
  | nil => rfl
  | cons v t ih =>
    simp only [List.map_cons, List.mem_cons, not_or] at h
    have hv : ¬ ((v.id == u.id) = true) := by
      simp only [beq_iff_eq]
      exact fun hvu => h.1 hvu.symm
    show (if (v.id == u.id) = true then u else v) :: updateUser t u = v :: t
    rw [if_neg hv, ih h.2]

theorem updateUser_self {db : List User} {u : User}
    (hids : (db.map User.id).Nodup) (hmem : u ∈ db) : updateUser db u = db := by
  induction db with
  | nil => cases hmem
  | cons v t ih =>
    simp only [List.map_cons, List.nodup_cons] at hids
    rcases List.mem_cons.mp hmem with rfl | hmt
    · show (if (u.id == u.id) = true then u else u) :: updateUser t u = u :: t
      rw [if_pos (by simp), updateUser_of_not_mem (by simpa using hids.1)]
    · have hv : ¬ ((v.id == u.id) = true) := by
        simp only [beq_iff_eq]
        intro hvu
        exact hids.1 (hvu ▸ List.mem_map_of_mem User.id hmt)
      show (if (v.id == u.id) = true then u else v) :: updateUser t u = v :: t
      rw [if_neg hv, ih hids.2 hmt]

theorem findUser_updateUser {db : List User} {e : String} {u u' : User}
    (hids : (db.map User.id).Nodup)
    (hfind : findUser db e = some u)
    (hid : u'.id = u.id) (hemail : u'.email = u.email) :
    findUser (updateUser db u') e = some u' := by
  induction db with
  | nil => simp [findUser] at hfind
  | cons v t ih =>
    simp only [List.map_cons, List.nodup_cons] at hids
    by_cases hv : (v.email == e) = true
    · have hu : u = v := by
        have h2 : findUser (v :: t) e = some v := List.find?_cons_of_pos _ hv
        rw [hfind] at h2
        exact Option.some.inj h2
      have hvid : (v.id == u'.id) = true := by
        have : u'.id = v.id := by rw [hid, hu]
        simp [this]
      show List.find? (fun x => x.email == e)
          ((if (v.id == u'.id) = true then u' else v) :: updateUser t u') = some u'
      rw [if_pos hvid]
      exact List.find?_cons_of_pos _ (by rw [hemail, hu]; exact hv)
    · have hfind' : findUser t e = some u := by
        have h2 : findUser (v :: t) e = findUser t e := List.find?_cons_of_neg _ hv
        rw [hfind] at h2
        exact h2.symm
      have humem : u ∈ t := mem_of_findUser hfind'
      have hvid : ¬ ((v.id == u'.id) = true) := by
        simp only [beq_iff_eq]
        intro hvu
        exact hids.1 (by rw [hvu, hid]; exact List.mem_map_of_mem User.id humem)
      show List.find? (fun x => x.email == e)
          ((if (v.id == u'.id) = true then u' else v) :: updateUser t u') = some u'
      rw [if_neg hvid]
      have hstep : List.find? (fun x => x.email == e) (v :: updateUser t u')
          = List.find? (fun x => x.email == e) (updateUser t u') :=
        List.find?_cons_of_neg _ hv
      rw [hstep]
      exact ih hids.2 hfind'

theorem updateUser_updateUser (db : List User) (u1 u2 : User)
    (h : u1.id = u2.id) :
    updateUser (updateUser db u1) u2 = updateUser db u2 := by
  induction db with
  | nil => rfl
  | cons v t ih =>
    by_cases hv : (v.id == u1.id) = true
    · have hv2 : (v.id == u2.id) = true := by
        rw [show v.id = u1.id from eq_of_beq hv, h]; simp
      show (if ((if (v.id == u1.id) = true then u1 else v).id == u2.id) = true
              then u2 else (if (v.id == u1.id) = true then u1 else v))
            :: updateUser (updateUser t u1) u2
          = (if (v.id == u2.id) = true then u2 else v) :: updateUser t u2
      rw [if_pos hv, if_pos hv2, if_pos (by rw [h]; simp), ih]
    · show (if ((if (v.id == u1.id) = true then u1 else v).id == u2.id) = true
              then u2 else (if (v.id == u1.id) = true then u1 else v))
            :: updateUser (updateUser t u1) u2
          = (if (v.id == u2.id) = true then u2 else v) :: updateUser t u2
      rw [if_neg hv, ih]

theorem eq_of_adminCount_one {db : List User} {x y : User}
    (hone : adminCount db = 1)
    (hx : x ∈ db) (hy : y ∈ db)
    (hxa : x.userType = "admin") (hya : y.userType = "admin") : x = y := by
  obtain ⟨z, hz⟩ := List.length_eq_one.mp hone
  have hxz : x ∈ db.filter (fun u => u.userType == "admin") :=
    List.mem_filter.mpr ⟨hx, by simp [hxa]⟩
  have hyz : y ∈ db.filter (fun u => u.userType == "admin") :=
    List.mem_filter.mpr ⟨hy, by simp [hya]⟩
  rw [hz] at hxz hyz
  simp only [List.mem_singleton] at hxz hyz
  rw [hxz, hyz]

/-! ### Claims C1, C2, C10 -/

/-- C1: evidence that the code contradicts the claim.  For the account
`alice` (`otp_enabled = false`) and the correct password, `LoginView.post`
returns no token pair: the entire token-issuing block (views.py lines
922-967) is indented inside the failed-password branch after its `return`,
so a correct password makes the view body end without any `return` and the
view hands `None` back to Django.  The table, hence `otp_secret`, is
untouched only because nothing executes. -/
theorem c1_login_correct_password_yields_no_response :
    login [alice] (some "alice@x.com") (some "pw123456")
      = (LoginResult.noResponse, [alice]) := by
  decide

/-- C2: for an account with pending one-time code `c`, `verify_otp` with
exactly `c` returns a token pair and clears the stored code; any other
supplied value fails with the invalid-code error and leaves the table
unchanged; an email matching no account fails with the not-found error. -/
theorem c2_verify_otp_correct (db : List User) (e c : String) (u : User)
    (hids : (db.map User.id).Nodup)
    (hfind : findUser db e = some u)
    (hcode : u.otpSecret = some c) :
    (verifyOtp db (some e) (some c)
        = (OtpResult.tokens (tokensFor u).1 (tokensFor u).2,
            updateUser db { u with otpSecret := none })
      ∧ findUser (updateUser db { u with otpSecret := none }) e
          = some { u with otpSecret := none })
    ∧ (∀ o : Option String, o ≠ some c →
        verifyOtp db (some e) o = (OtpResult.invalidCode, db))
    ∧ (∀ (e2 : String) (o : Option String), findUser db e2 = none →
        verifyOtp db (some e2) o = (OtpResult.notFound, db)) := by
  refine ⟨⟨?_, ?_⟩, ?_, ?_⟩
  · simp only [verifyOtp, hfind, hcode]
    rw [if_pos (by simp)]
  · exact findUser_updateUser hids hfind rfl rfl
  · intro o ho
    simp only [verifyOtp, hfind, hcode]
    rw [if_neg (by simpa using ho)]
  · intro e2 o h
    simp only [verifyOtp, h]

/-- Witness for `c2_verify_otp_correct` at the account `bob` and the wrong
code `000000`. -/
theorem c2_verify_otp_correct_witness :
    ([bob].map User.id).Nodup ∧ findUser [bob] "bob@x.com" = some bob ∧
    verifyOtp [bob] (some "bob@x.com") (some "000000")
      = (OtpResult.invalidCode, [bob]) :=
  ⟨by decide, by decide,
    (c2_verify_otp_correct [bob] "bob@x.com" "123456" bob (by decide)
        (by decide) rfl).2.1 (some "000000") (by decide)⟩

/-- C10: an existing account whose stored pending code is null passes the
`otp == user.otp_secret` comparison with a request carrying no `otp` field
(Python `None == None`) and is issued a token pair, no one-time code ever
having been generated or verified; the table is unchanged because clearing
an already-null code is the identity. -/
theorem c10_verify_otp_null_code (db : List User) (e : String) (u : User)
    (hids : (db.map User.id).Nodup)
    (hfind : findUser db e = some u)
    (hnone : u.otpSecret = none) :
    verifyOtp db (some e) none
      = (OtpResult.tokens (tokensFor u).1 (tokensFor u).2, db) := by
  have hu : { u with otpSecret := none } = u := by
    cases u
    simp_all
  simp only [verifyOtp, hfind, hnone]
  rw [if_pos (show ((none : Option String) == none) = true from rfl), hu,
    updateUser_self hids (mem_of_findUser hfind)]

/-! ### Claim C3 -/

/-- C3 counterexample: `setup_password` performs no expiry check.  For the
account `carol`, whose stored issuance timestamp is absent (the approval
flow that issues setup codes never records one), a matching code with a
valid new password succeeds and replaces the password hash, where the claim
demands a token-expired failure leaving the password unchanged. -/
theorem c3_setup_password_ignores_expiry :
    setupPassword [carol] (some "carol@x.com") (some "654321")
        (some "abcd1234")
      = (PasswordResult.success,
          [{ carol with
              passwordHash := hashPw "abcd1234"
              otpSecret := none }]) := by
  decide

/-- C3 (amended): `reset_password` enforces the 30-minute window — with a
well-formed password and a matching truthy code, an absent or stale
issuance timestamp fails with the token-expired error, leaving the password
hash unchanged, while within the window the hash is replaced and code and
timestamp are cleared; too-short or digit-free passwords are rejected by
both views before any state change; `setup_password` checks only the code
match and succeeds regardless of the timestamp, clearing the code but not
the timestamp. -/
theorem c3_password_reset_windows (db : List User) (e tok p : String)
    (u : User) (now : Int)
    (hfind : findUser db e = some u)
    (htok : u.otpSecret = some tok) (htne : tok ≠ "") (hene : e ≠ "")
    (hpne : p ≠ "") (hlen : 8 ≤ p.length) (hdig : hasDigit p = true) :
    ((u.otpSecretCreatedAt = none ∨
        (∃ t0, u.otpSecretCreatedAt = some t0 ∧ now - t0 > 30)) →
      resetPassword db (some e) (some tok) (some p) now
        = (PasswordResult.tokenExpired,
            updateUser db { u with otpSecret := none, otpSecretCreatedAt := none }))
    ∧ (∀ t0, u.otpSecretCreatedAt = some t0 → now - t0 ≤ 30 →
        resetPassword db (some e) (some tok) (some p) now
          = (PasswordResult.success,
              updateUser db
                { u with
                    passwordHash := hashPw p
                    otpSecret := none
                    otpSecretCreatedAt := none }))
    ∧ (∀ q : String, q ≠ "" → q.length < 8 →
        resetPassword db (some e) (some tok) (some q) now
          = (PasswordResult.passwordTooShort, db)
        ∧ setupPassword db (some e) (some tok) (some q)
          = (PasswordResult.passwordTooShort, db))
    ∧ (∀ q : String, q ≠ "" → 8 ≤ q.length → hasDigit q = false →
        resetPassword db (some e) (some tok) (some q) now
          = (PasswordResult.passwordNoDigit, db)
        ∧ setupPassword db (some e) (some tok) (some q)
          = (PasswordResult.passwordNoDigit, db))
    ∧ setupPassword db (some e) (some tok) (some p)
        = (PasswordResult.success,
            updateUser db { u with passwordHash := hashPw p, otpSecret := none }) := by
  have he : (e != "") = true := bne_iff_ne.mpr hene
  have ht : (tok != "") = true := bne_iff_ne.mpr htne
  have hp : (p != "") = true := bne_iff_ne.mpr hpne
  have h8 : ¬ p.length < 8 := Nat.not_lt.mpr hlen
  refine ⟨?_, ?_, ?_, ?_, ?_⟩
  · rintro (hnone | ⟨t0, ht0, hgt⟩)
    · simp [resetPassword, truthy, he, ht, hp, h8, hdig, hfind, htok, hnone]
    · simp [resetPassword, truthy, he, ht, hp, h8, hdig, hfind, htok, ht0, hgt]
  · intro t0 ht0 hle
    simp [resetPassword, truthy, he, ht, hp, h8, hdig, hfind, htok, ht0,
      not_lt.mpr hle]
  · intro q hqne hq8
    have hq : (q != "") = true := bne_iff_ne.mpr hqne
    exact ⟨by simp [resetPassword, truthy, he, ht, hq, hq8],
      by simp [setupPassword, truthy, he, ht, hq, hq8]⟩
  · intro q hqne hq8 hqd
    have hq : (q != "") = true := bne_iff_ne.mpr hqne
    have h8q : ¬ q.length < 8 := Nat.not_lt.mpr hq8
    exact ⟨by simp [resetPassword, truthy, he, ht, hq, h8q, hqd],
      by simp [setupPassword, truthy, he, ht, hq, h8q, hqd]⟩
  · simp [setupPassword, truthy, he, ht, hp, h8, hdig, hfind, htok]

/-- Witness for `c3_password_reset_windows` at the account `dave`: an
expired reset at time 31 and a successful one at time 10. -/
theorem c3_password_reset_windows_witness :
    findUser [dave] "dave@x.com" = some dave ∧
    resetPassword [dave] (some "dave@x.com") (some "222333")
        (some "abcd1234") 31
      = (PasswordResult.tokenExpired,
          [{ dave with otpSecret := none, otpSecretCreatedAt := none }]) ∧
    resetPassword [dave] (some "dave@x.com") (some "222333")
        (some "abcd1234") 10
      = (PasswordResult.success,
          [{ dave with
              passwordHash := hashPw "abcd1234"
              otpSecret := none
              otpSecretCreatedAt := none }]) := by
  refine ⟨by decide, ?_, ?_⟩
  · rw [(c3_password_reset_windows [dave] "dave@x.com" "222333" "abcd1234"
      dave 31 (by decide) rfl (by decide) (by decide) (by decide) (by decide)
      rfl).1 (Or.inr ⟨0, rfl, by norm_num⟩)]
    decide
  · rw [(c3_password_reset_windows [dave] "dave@x.com" "222333" "abcd1234"
      dave 10 (by decide) rfl (by decide) (by decide) (by decide) (by decide)
      rfl).2.1 0 rfl (by norm_num)]
    decide

/-! ### Claim C7 -/

/-- C7 counterexample: when the reset email cannot be sent, the view
answers an existing account with the 500 email-failure response but a
missing account with the generic success message, so the two runs are
distinguishable and the responses are not the same generic message. -/
theorem c7_reset_request_distinguishable :
    (requestPasswordReset [alice] (some "alice@x.com") "111222" 0 false).1
      = ResetRequestResult.emailFailed
    ∧ (requestPasswordReset [] (some "alice@x.com") "111222" 0 false).1
      = ResetRequestResult.generic
    ∧ ResetRequestResult.emailFailed ≠ ResetRequestResult.generic := by
  decide

/-- C7 (amended): provided the reset email is dispatched successfully, the
response of `request_password_reset` is independent of the account table:
two runs with the same supplied email — one where an account exists and one
where none does — produce identical responses (the generic success message
for every non-empty email, the missing-email error for the empty one). -/
theorem c7_reset_request_indistinguishable (db db' : List User)
    (e tok tok' : String) (now now' : Int) :
    (requestPasswordReset db (some e) tok now true).1
      = (requestPasswordReset db' (some e) tok' now' true).1 := by
  have key : ∀ (d : List User) (t : String) (n : Int),
      (requestPasswordReset d (some e) t n true).1
        = if e = "" then ResetRequestResult.badRequest
          else ResetRequestResult.generic := by
    intro d t n
    by_cases hee : e = ""
    · simp [requestPasswordReset, truthy, hee]
    · have he : (e != "") = true := bne_iff_ne.mpr hee
      cases hf : findUser d e with
      | none => simp [requestPasswordReset, truthy, he, hf, hee]
      | some u => simp [requestPasswordReset, truthy, he, hf, hee]
  rw [key, key]

/-! ### Claim C9 -/

/-- C9 counterexample: the email-failure rollback clears the pending code
to null instead of restoring the previous value.  For the account `carol`,
which already holds the pending code `654321`, a 2FA enablement whose
verification email fails leaves the stored pending code null, so the
account's pending-code state differs from the state before the
operation. -/
theorem c9_rollback_clears_to_null :
    (enable2FA [carol] carol "999999" false).2
      = [{ carol with otpSecret := none }]
    ∧ [{ carol with otpSecret := none }] ≠ [carol] := by
  decide

/-- C9 (amended): in each OTP-issuing flow — 2FA enablement, admin
approval, password-reset request — an email failure sets the just-stored
pending code back to null (the reset flow also nulls the timestamp) and
returns the email-failure response; the pre-operation state is restored
exactly when no code was pending before the call. -/
theorem c9_email_failure_rollback (db : List User) (u : User) (tok : String)
    (hids : (db.map User.id).Nodup) (hmem : u ∈ db) :
    (u.otpEnabled = false →
      enable2FA db u tok false
        = (Enable2FAResult.emailFailed,
            updateUser db { u with otpSecret := none })
      ∧ (u.otpSecret = none → (enable2FA db u tok false).2 = db))
    ∧ (∀ uid, findUserById db uid = some u → u.status = false →
        approveUser db uid tok false
          = (ApproveResult.emailFailed,
              updateUser db { u with otpSecret := none })
        ∧ (u.otpSecret = none → (approveUser db uid tok false).2 = db))
    ∧ (∀ now : Int, u.email ≠ "" → findUser db u.email = some u →
        requestPasswordReset db (some u.email) tok now false
          = (ResetRequestResult.emailFailed,
              updateUser db { u with otpSecret := none, otpSecretCreatedAt := none })
        ∧ (u.otpSecret = none → u.otpSecretCreatedAt = none →
            (requestPasswordReset db (some u.email) tok now false).2 = db)) := by
  refine ⟨?_, ?_, ?_⟩
  · intro hotp
    have h1 : enable2FA db u tok false
        = (Enable2FAResult.emailFailed,
            updateUser (updateUser db { u with otpSecret := some tok })
              { u with otpSecret := none }) := by
      simp [enable2FA, hotp]
    rw [updateUser_updateUser db { u with otpSecret := some tok }
      { u with otpSecret := none } rfl] at h1
    refine ⟨h1, fun hnone => ?_⟩
    have hrec : ({ u with otpSecret := none } : User) = u := by
      cases u; simp_all
    rw [h1, hrec, updateUser_self hids hmem]
  · intro uid hfu hstat
    have h1 : approveUser db uid tok false
        = (ApproveResult.emailFailed,
            updateUser (updateUser db { u with otpSecret := some tok })
              { u with otpSecret := none }) := by
      simp [approveUser, hfu, hstat]
    rw [updateUser_updateUser db { u with otpSecret := some tok }
      { u with otpSecret := none } rfl] at h1
    refine ⟨h1, fun hnone => ?_⟩
    have hrec : ({ u with otpSecret := none } : User) = u := by
      cases u; simp_all
    rw [h1, hrec, updateUser_self hids hmem]
  · intro now hene hfind
    have he : (u.email != "") = true := bne_iff_ne.mpr hene
    have h1 : requestPasswordReset db (some u.email) tok now false
        = (ResetRequestResult.emailFailed,
            updateUser (updateUser db
                { u with otpSecret := some tok, otpSecretCreatedAt := some now })
              { u with otpSecret := none, otpSecretCreatedAt := none }) := by
      simp [requestPasswordReset, truthy, he, hfind]
    rw [updateUser_updateUser db
      { u with otpSecret := some tok, otpSecretCreatedAt := some now }
      { u with otpSecret := none, otpSecretCreatedAt := none } rfl] at h1
    refine ⟨h1, fun hnone hts => ?_⟩
    have hrec : ({ u with otpSecret := none, otpSecretCreatedAt := none } : User)
        = u := by
      cases u; simp_all
    rw [h1, hrec, updateUser_self hids hmem]

/-- Witness for `c9_email_failure_rollback` at the account `eve`, which has
no pending code, so the failed flow restores the table exactly. -/
theorem c9_email_failure_rollback_witness :
    eve ∈ [eve] ∧ eve.otpEnabled = false ∧
    (enable2FA [eve] eve "999999" false).2 = [eve] :=
  ⟨by decide, rfl,
    ((c9_email_failure_rollback [eve] eve "999999" (by decide)
        (by decide)).1 rfl).2 rfl⟩

/-! ### Claim C4 -/

/-- C4 counterexample: deleting the sole admin does not fail with the
admin-count conflict error.  With `admin1` the only account, the only
requester able to reach the admin-only `destroy` endpoint is `admin1`
itself, and the request is rejected by the self-deletion guard — a
different error than the sole-admin conflict the claim names; `destroy`
contains no admin-count check at all. -/
theorem c4_sole_admin_delete_is_self_deletion :
    userDestroy [admin1] admin1.id admin1.id
      = (UserOpResult.err UserErr.selfDeletion, [admin1])
    ∧ UserOpResult.err UserErr.selfDeletion
        ≠ UserOpResult.err UserErr.adminConflict := by
  decide

/-- C4 (amended): when exactly one account has role `admin`, a demotion
request for that account (whose supplied email does not trip the
duplicate-email guard) fails with the at-least-one-admin conflict error,
and a delete request issued through the admin-only endpoint fails with the
self-deletion error, since the requester — an admin present in the table —
must be the target itself; in both cases the table is unchanged, so the
account still exists with role `admin` and the admin count is still one. -/
theorem c4_sole_admin_protected (db : List User) (a r : User)
    (hone : adminCount db = 1)
    (hfa : findUserById db a.id = some a) (ha : a.userType = "admin")
    (hr : r ∈ db) (hradmin : r.userType = "admin") :
    (∀ req : UpdateRequest, req.userType = some "user" →
      (truthy req.email && (req.email.getD "" != a.email)
        && db.any (fun v => v.email == req.email.getD "")) = false →
      userUpdate db a.id req = (.err .adminConflict, db))
    ∧ userDestroy db r.id a.id = (.err .selfDeletion, db)
    ∧ adminCount (userDestroy db r.id a.id).2 = 1 := by
  have hra : r = a :=
    eq_of_adminCount_one hone hr (mem_of_findUserById hfa) hradmin ha
  have hdes : userDestroy db r.id a.id = (.err .selfDeletion, db) := by
    simp only [userDestroy, hfa]
    rw [if_pos (by rw [hra]; simp)]
  refine ⟨?_, hdes, ?_⟩
  · intro req hut hmail
    simp only [userUpdate, hfa, hmail, Bool.false_eq_true, if_false]
    rw [if_pos ?_]
    rw [hut]
    simp [truthy, ha, hone]
  · rw [hdes]
    exact hone

/-- Witness for `c4_sole_admin_protected` on the table holding the sole
admin `admin1` and the regular account `alice`. -/
theorem c4_sole_admin_protected_witness :
    adminCount [admin1, alice] = 1 ∧
    userUpdate [admin1, alice] admin1.id ⟨none, some "user"⟩
      = (UserOpResult.err UserErr.adminConflict, [admin1, alice]) ∧
    userDestroy [admin1, alice] admin1.id admin1.id
      = (UserOpResult.err UserErr.selfDeletion, [admin1, alice]) := by
  have h := c4_sole_admin_protected [admin1, alice] admin1 admin1
    (by decide) (by decide) rfl (by decide) rfl
  exact ⟨by decide, h.1 ⟨none, some "user"⟩ rfl (by decide), h.2.1⟩

/-- Witness for `c10_verify_otp_null_code` at the account `alice`. -/
theorem c10_verify_otp_null_code_witness :
    findUser [alice] "alice@x.com" = some alice ∧
    verifyOtp [alice] (some "alice@x.com") none
      = (OtpResult.tokens "access:alice@x.com" "refresh:alice@x.com",
          [alice]) :=
  ⟨by decide, by
    rw [c10_verify_otp_null_code [alice] "alice@x.com" alice (by decide)
      (by decide) rfl]
    decide⟩

/-! ### Payment-table lemmas -/

theorem sSetFirstStatus_mem {ps : List SPayment} {sid st : String}
    {q : SPayment} (h : q ∈ sSetFirstStatus ps sid st) :
    q ∈ ps ∨ q.status = st := by
  induction ps with
  | nil => simp [sSetFirstStatus] at h
  | cons p t ih =>
    simp only [sSetFirstStatus] at h
    by_cases hcnd : (p.subscriptionId == some sid) = true
    · rw [if_pos hcnd] at h
      rcases List.mem_cons.mp h with rfl | hq
      · exact Or.inr rfl
      · exact Or.inl (List.mem_cons_of_mem p hq)
    · rw [if_neg hcnd] at h
      rcases List.mem_cons.mp h with rfl | hq
      · exact Or.inl (List.mem_cons_self _ _)
      · rcases ih hq with hm | hst
        · exact Or.inl (List.mem_cons_of_mem p hm)
        · exact Or.inr hst

theorem sSetFirstStatus_ids (ps : List SPayment) (sid st : String) :
    (sSetFirstStatus ps sid st).map SPayment.stripePaymentId
      = ps.map SPayment.stripePaymentId := by
  induction ps with
  | nil => rfl
  | cons p t ih =>
    simp only [sSetFirstStatus]
    by_cases hcnd : (p.subscriptionId == some sid) = true
    · rw [if_pos hcnd]; simp
    · rw [if_neg hcnd]; simp only [List.map_cons, ih]

theorem sSetFirstStatus_mem_of_find {ps : List SPayment} {sid : String}
    {p : SPayment} (st : String)
    (h : ps.find? (fun q => q.subscriptionId == some sid) = some p) :
    { p with status := st } ∈ sSetFirstStatus ps sid st := by
  induction ps with
  | nil => simp at h
  | cons v t ih =>
    by_cases hcnd : (v.subscriptionId == some sid) = true
    · have h2 : (v :: t).find? (fun q => q.subscriptionId == some sid)
          = some v := List.find?_cons_of_pos _ hcnd
      rw [h] at h2
      have hv : p = v := Option.some.inj h2
      simp only [sSetFirstStatus]
      rw [if_pos hcnd, hv]
      exact List.mem_cons_self _ _
    · have h2 : (v :: t).find? (fun q => q.subscriptionId == some sid)
          = t.find? (fun q => q.subscriptionId == some sid) :=
        List.find?_cons_of_neg _ hcnd
      rw [h] at h2
      simp only [sSetFirstStatus]
      rw [if_neg hcnd]
      exact List.mem_cons_of_mem _ (ih h2.symm)

theorem rSetFirstStatus_mem {ps : List RPayment} {sid st : String}
    {q : RPayment} (h : q ∈ rSetFirstStatus ps sid st) :
    q ∈ ps ∨ q.status = st := by
  induction ps with
  | nil => simp [rSetFirstStatus] at h
  | cons p t ih =>
    simp only [rSetFirstStatus] at h
    by_cases hcnd : (p.subscriptionId == some sid) = true
    · rw [if_pos hcnd] at h
      rcases List.mem_cons.mp h with rfl | hq
      · exact Or.inr rfl
      · exact Or.inl (List.mem_cons_of_mem p hq)
    · rw [if_neg hcnd] at h
      rcases List.mem_cons.mp h with rfl | hq
      · exact Or.inl (List.mem_cons_self _ _)
      · rcases ih hq with hm | hst
        · exact Or.inl (List.mem_cons_of_mem p hm)
        · exact Or.inr hst

theorem rSetFirstStatus_ids (ps : List RPayment) (sid st : String) :
    (rSetFirstStatus ps sid st).map RPayment.stripePaymentId
      = ps.map RPayment.stripePaymentId := by
  induction ps with
  | nil => rfl
  | cons p t ih =>
    simp only [rSetFirstStatus]
    by_cases hcnd : (p.subscriptionId == some sid) = true
    · rw [if_pos hcnd]; simp
    · rw [if_neg hcnd]; simp only [List.map_cons, ih]

theorem rSetStatusAt_mem {ps : List RPayment} {i : Nat} {st : String}
    {q : RPayment} (h : q ∈ rSetStatusAt ps i st) :
    q ∈ ps ∨ q.status = st := by
  induction ps generalizing i with
  | nil => simp [rSetStatusAt] at h
  | cons p t ih =>
    cases i with
    | zero =>
      simp only [rSetStatusAt] at h
      rcases List.mem_cons.mp h with rfl | hq
      · exact Or.inr rfl
      · exact Or.inl (List.mem_cons_of_mem p hq)
    | succ j =>
      simp only [rSetStatusAt] at h
      rcases List.mem_cons.mp h with rfl | hq
      · exact Or.inl (List.mem_cons_self _ _)
      · rcases ih hq with hm | hst
        · exact Or.inl (List.mem_cons_of_mem p hm)
        · exact Or.inr hst

theorem rSetStatusAt_ids (ps : List RPayment) (i : Nat) (st : String) :
    (rSetStatusAt ps i st).map RPayment.stripePaymentId
      = ps.map RPayment.stripePaymentId := by
  induction ps generalizing i with
  | nil => rfl
  | cons p t ih =>
    cases i with
    | zero => simp [rSetStatusAt]
    | succ j => simp only [rSetStatusAt, List.map_cons, ih]

theorem sStep_status {P : String → Prop} {ps : List SPayment} {op : SPayOp}
    (h0 : ∀ p ∈ ps, P p.status)
    (hs : P "succeeded") (hc : P "canceled") (ha : P "active")
    (hcar : ∀ st, op.carriedStatus = some st → P st) :
    ∀ q ∈ sStep ps op, P q.status := by
  intro q hq
  cases op with
  | cancel sid =>
    rcases sSetFirstStatus_mem hq with hm | hst
    · exact h0 q hm
    · rw [hst]; exact hc
  | hook ok ev =>
    cases ok with
    | false => exact h0 q hq
    | true =>
      cases ev with
      | setupIntentSucceeded intentId amountMeta priceId newSubId email =>
        cases priceId with
        | none => exact h0 q hq
        | some pid =>
          rcases List.mem_append.mp hq with hm | hm
          · exact h0 q hm
          · rw [List.mem_singleton.mp hm]; exact hs
      | invoicePaymentSucceeded subId =>
        simp only [sStep, sWebhook, Bool.not_true, Bool.false_eq_true,
          if_false] at hq
        cases hfind : ps.find? (fun p => p.subscriptionId == some subId) with
        | none => rw [hfind] at hq; exact h0 q hq
        | some p =>
          rw [hfind] at hq
          rcases sSetFirstStatus_mem hq with hm | hst
          · exact h0 q hm
          · rw [hst]; exact ha
      | subscriptionUpdated subId st =>
        rcases sSetFirstStatus_mem hq with hm | hst
        · exact h0 q hm
        · rw [hst]; exact hcar st rfl
      | subscriptionDeleted subId =>
        rcases sSetFirstStatus_mem hq with hm | hst
        · exact h0 q hm
        · rw [hst]; exact hc
      | paymentIntentSucceeded intentId amountCents currency email pt mt =>
        cases email with
        | none => exact h0 q hq
        | some e =>
          rcases List.mem_append.mp hq with hm | hm
          · exact h0 q hm
          · rw [List.mem_singleton.mp hm]; exact hs
      | otherEvent => exact h0 q hq

theorem sStep_ids (ps : List SPayment) (op : SPayOp) :
    ∃ ext, (sStep ps op).map SPayment.stripePaymentId
      = ps.map SPayment.stripePaymentId ++ ext := by
  cases op with
  | cancel sid => exact ⟨[], by simp [sStep, sSetFirstStatus_ids]⟩
  | hook ok ev =>
    cases ok with
    | false => exact ⟨[], by simp [sStep, sWebhook]⟩
    | true =>
      cases ev with
      | setupIntentSucceeded intentId amountMeta priceId newSubId email =>
        cases priceId with
        | none => exact ⟨[], by simp [sStep, sWebhook]⟩
        | some pid => exact ⟨[intentId], by simp [sStep, sWebhook]⟩
      | invoicePaymentSucceeded subId =>
        cases hfind : ps.find? (fun p => p.subscriptionId == some subId) with
        | none => exact ⟨[], by simp [sStep, sWebhook, hfind]⟩
        | some p =>
          exact ⟨[], by simp [sStep, sWebhook, hfind, sSetFirstStatus_ids]⟩
      | subscriptionUpdated subId st =>
        exact ⟨[], by simp [sStep, sWebhook, sSetFirstStatus_ids]⟩
      | subscriptionDeleted subId =>
        exact ⟨[], by simp [sStep, sWebhook, sSetFirstStatus_ids]⟩
      | paymentIntentSucceeded intentId amountCents currency email pt mt =>
        cases email with
        | none => exact ⟨[], by simp [sStep, sWebhook]⟩
        | some e => exact ⟨[intentId], by simp [sStep, sWebhook]⟩
      | otherEvent => exact ⟨[], by simp [sStep, sWebhook]⟩

theorem sRun_status {P : String → Prop}
    (hs : P "succeeded") (hc : P "canceled") (ha : P "active") :
    ∀ (ops : List SPayOp) (ps : List SPayment),
      (∀ p ∈ ps, P p.status) →
      (∀ op ∈ ops, ∀ st, op.carriedStatus = some st → P st) →
      ∀ q ∈ sRun ps ops, P q.status := by
  intro ops
  induction ops with
  | nil => exact fun ps h0 _ q hq => h0 q hq
  | cons op ops ih =>
    intro ps h0 hcar q hq
    exact ih (sStep ps op)
      (sStep_status h0 hs hc ha (hcar op (List.mem_cons_self _ _)))
      (fun o ho st hst => hcar o (List.mem_cons_of_mem _ ho) st hst) q hq

theorem sRun_ids : ∀ (ops : List SPayOp) (ps : List SPayment),
    ∃ ext, (sRun ps ops).map SPayment.stripePaymentId
      = ps.map SPayment.stripePaymentId ++ ext := by
  intro ops
  induction ops with
  | nil => exact fun ps => ⟨[], by simp [sRun]⟩
  | cons op ops ih =>
    intro ps
    obtain ⟨e1, he1⟩ := sStep_ids ps op
    obtain ⟨e2, he2⟩ := ih (sStep ps op)
    refine ⟨e1 ++ e2, ?_⟩
    rw [show sRun ps (op :: ops) = sRun (sStep ps op) ops from rfl, he2, he1,
      List.append_assoc]

theorem rStep_status {P : String → Prop} {ps : List RPayment} {op : RPayOp}
    (h0 : ∀ p ∈ ps, P p.status)
    (hs : P "succeeded") (hc : P "canceled") :
    ∀ q ∈ rStep ps op, P q.status := by
  intro q hq
  cases op with
  | cancel i =>
    simp only [rStep, rCancelSubscription] at hq
    cases hget : ps[i]? with
    | none => rw [hget] at hq; exact h0 q hq
    | some p =>
      rw [hget] at hq
      have hq2 : q ∈ (if (p.subscriptionId == none) = true then (400, ps)
          else (200, rSetStatusAt ps i "canceled")).2 := hq
      by_cases hcnd : (p.subscriptionId == none) = true
      · rw [if_pos hcnd] at hq2; exact h0 q hq2
      · rw [if_neg hcnd] at hq2
        rcases rSetStatusAt_mem hq2 with hm | hst
        · exact h0 q hm
        · rw [hst]; exact hc
  | hook ok ev =>
    cases ok with
    | false => exact h0 q hq
    | true =>
      cases ev with
      | setupIntentSucceeded intentId amountMeta priceId newSubId =>
        cases priceId with
        | none => exact h0 q hq
        | some pid =>
          rcases List.mem_append.mp hq with hm | hm
          · exact h0 q hm
          · rw [List.mem_singleton.mp hm]; exact hs
      | paymentIntentSucceeded intentId amountCents currency email pt mt =>
        cases email with
        | none => exact h0 q hq
        | some e =>
          rcases List.mem_append.mp hq with hm | hm
          · exact h0 q hm
          · rw [List.mem_singleton.mp hm]; exact hs
      | subscriptionDeleted subId =>
        rcases rSetFirstStatus_mem hq with hm | hst
        · exact h0 q hm
        · rw [hst]; exact hc
      | otherEvent => exact h0 q hq

theorem rStep_ids (ps : List RPayment) (op : RPayOp) :
    ∃ ext, (rStep ps op).map RPayment.stripePaymentId
      = ps.map RPayment.stripePaymentId ++ ext := by
  cases op with
  | cancel i =>
    cases hget : ps[i]? with
    | none => exact ⟨[], by simp [rStep, rCancelSubscription, hget]⟩
    | some p =>
      by_cases hcnd : (p.subscriptionId == none) = true
      · exact ⟨[], by simp [rStep, rCancelSubscription, hget, hcnd]⟩
      · refine ⟨[], ?_⟩
        simp only [rStep, rCancelSubscription, hget]
        rw [if_neg hcnd]
        simp [rSetStatusAt_ids]
  | hook ok ev =>
    cases ok with
    | false => exact ⟨[], by simp [rStep, rWebhook]⟩
    | true =>
      cases ev with
      | setupIntentSucceeded intentId amountMeta priceId newSubId =>
        cases priceId with
        | none => exact ⟨[], by simp [rStep, rWebhook]⟩
        | some pid => exact ⟨[some intentId], by simp [rStep, rWebhook]⟩
      | paymentIntentSucceeded intentId amountCents currency email pt mt =>
        cases email with
        | none => exact ⟨[], by simp [rStep, rWebhook]⟩
        | some e => exact ⟨[some intentId], by simp [rStep, rWebhook]⟩
      | subscriptionDeleted subId =>
        exact ⟨[], by simp [rStep, rWebhook, rSetFirstStatus_ids]⟩
      | otherEvent => exact ⟨[], by simp [rStep, rWebhook]⟩

theorem rRun_status {P : String → Prop}
    (hs : P "succeeded") (hc : P "canceled") :
    ∀ (ops : List RPayOp) (ps : List RPayment),
      (∀ p ∈ ps, P p.status) → ∀ q ∈ rRun ps ops, P q.status := by
  intro ops
  induction ops with
  | nil => exact fun ps h0 q hq => h0 q hq
  | cons op ops ih =>
    intro ps h0 q hq
    exact ih (rStep ps op) (rStep_status h0 hs hc) q hq

theorem rRun_ids : ∀ (ops : List RPayOp) (ps : List RPayment),
    ∃ ext, (rRun ps ops).map RPayment.stripePaymentId
      = ps.map RPayment.stripePaymentId ++ ext := by
  intro ops
  induction ops with
  | nil => exact fun ps => ⟨[], by simp [rRun]⟩
  | cons op ops ih =>
    intro ps
    obtain ⟨e1, he1⟩ := rStep_ids ps op
    obtain ⟨e2, he2⟩ := ih (rStep ps op)
    refine ⟨e1 ++ e2, ?_⟩
    rw [show rRun ps (op :: ops) = rRun (rStep ps op) ops from rfl, he2, he1,
      List.append_assoc]

/-! ### Claim C5 -/

/-- C5 counterexample: processing `invoice.payment_succeeded` for an
existing subscription payment rewrites its status to `active`, a value
outside the five-value set the claim names; moreover the
`customer.subscription.updated` branch copies arbitrary processor-supplied
statuses, and the model's own `PAYMENT_STATUS_CHOICES` does not even list
`canceled`. -/
theorem c5_webhook_writes_active :
    (sWebhook [subPay] true
        (SWebhookEvent.invoicePaymentSucceeded "sub_1")).payments
      = [{ subPay with status := "active" }]
    ∧ "active" ∉ specPaymentStatuses
    ∧ (sWebhook [subPay] true
        (SWebhookEvent.subscriptionUpdated "sub_1" "past_due")).payments
      = [{ subPay with status := "past_due" }]
    ∧ "past_due" ∉ specPaymentStatuses
    ∧ "canceled" ∉ PAYMENT_STATUS_CHOICES := by
  decide

/-- C5 (amended): across any sequence of webhook deliveries and
subscription cancellations, payment statuses stay within the initial
statuses together with `succeeded`, `canceled`, `active` and whatever
subscription statuses the processor supplies on
`customer.subscription.updated` events (for the Stripe app's table), and
within the initial statuses together with `succeeded` and `canceled` for
the `django_rest` table; no operation ever deletes a payment row (the
original `stripe_payment_id` column is preserved in order), and a
`customer.subscription.deleted` event marks the matching payment
`canceled`. -/
theorem c5_payment_status_evolution
    (P : String → Prop) (ps : List SPayment) (ops : List SPayOp)
    (h0 : ∀ p ∈ ps, P p.status)
    (hs : P "succeeded") (hc : P "canceled") (ha : P "active")
    (hcar : ∀ op ∈ ops, ∀ st, op.carriedStatus = some st → P st) :
    (∀ q ∈ sRun ps ops, P q.status)
    ∧ (∃ ext, (sRun ps ops).map SPayment.stripePaymentId
        = ps.map SPayment.stripePaymentId ++ ext)
    ∧ (∀ (qs : List SPayment) (sid : String) (p : SPayment),
        qs.find? (fun q => q.subscriptionId == some sid) = some p →
          { p with status := "canceled" }
            ∈ (sWebhook qs true (SWebhookEvent.subscriptionDeleted sid)).payments)
    ∧ (∀ (Q : String → Prop) (rs : List RPayment) (rops : List RPayOp),
        (∀ p ∈ rs, Q p.status) → Q "succeeded" → Q "canceled" →
        ∀ q ∈ rRun rs rops, Q q.status)
    ∧ (∀ (rs : List RPayment) (rops : List RPayOp),
        ∃ ext, (rRun rs rops).map RPayment.stripePaymentId
          = rs.map RPayment.stripePaymentId ++ ext) := by
  refine ⟨sRun_status hs hc ha ops ps h0 hcar, sRun_ids ops ps, ?_, ?_, ?_⟩
  · intro qs sid p hfind
    exact sSetFirstStatus_mem_of_find "canceled" hfind
  · intro Q rs rops h0r hsr hcr
    exact rRun_status hsr hcr rops rs h0r
  · intro rs rops
    exact rRun_ids rops rs

/-- Witness for `c5_payment_status_evolution`: the concrete table holding
`subPay` run through an `invoice.payment_succeeded` delivery, with the
allowed-status predicate instantiated to a concrete list. -/
theorem c5_payment_status_evolution_witness :
    (∀ p ∈ [subPay],
        p.status ∈ (["succeeded", "canceled", "active"] : List String))
    ∧ ∀ q ∈ sRun [subPay]
        [SPayOp.hook true (SWebhookEvent.invoicePaymentSucceeded "sub_1")],
        q.status ∈ (["succeeded", "canceled", "active"] : List String) :=
  ⟨by decide,
    (c5_payment_status_evolution
      (fun s => s ∈ (["succeeded", "canceled", "active"] : List String))
      [subPay]
      [SPayOp.hook true (SWebhookEvent.invoicePaymentSucceeded "sub_1")]
      (by decide) (by decide) (by decide) (by decide)
      (fun op hop st hst => by
        rw [List.mem_singleton] at hop
        subst hop
        exact Option.noConfusion hst)).1⟩

/-! ### Claim C6 -/

/-- C6: a webhook request whose signature verification or payload parsing
fails (`stripe.Webhook.construct_event` raising) is answered with HTTP 400
by both webhook handlers, with the payment table unchanged, no
confirmation email dispatched and no outbound processor call made. -/
theorem c6_bad_signature_rejected (rs : List RPayment) (ss : List SPayment)
    (rev : RWebhookEvent) (sev : SWebhookEvent) :
    rWebhook rs false rev = ⟨rs, 0, 0, 400⟩
    ∧ sWebhook ss false sev = ⟨ss, 0, 0, 400⟩ :=
  ⟨rfl, rfl⟩

/-! ### Claim C8 -/

/-- C8: the cent conversion of `create_intent` (`amount * 100`) composed
with the division of the `payment_intent.succeeded` branch
(`payment_intent.amount / 100`) is the identity on amounts: one such
delivery appends exactly one payment with status `succeeded` and amount
`A` and dispatches exactly one confirmation email; in particular the
conversion round-trips the donation of 50. -/
theorem c8_amount_round_trip (ps : List RPayment) (A : ℚ)
    (intentId currency e : String) (paymentType : Option String)
    (methodType : String) :
    (rWebhook ps true (RWebhookEvent.paymentIntentSucceeded intentId
        (createIntentCents A) currency (some e) paymentType
        methodType)).payments
      = ps ++ [{ stripePaymentId := some intentId, amount := A,
                 currency := currency, status := "succeeded",
                 paymentType := paymentType.getD "one_time_donation",
                 paymentMethod := some methodType, subscriptionId := none }]
    ∧ (rWebhook ps true (RWebhookEvent.paymentIntentSucceeded intentId
        (createIntentCents A) currency (some e) paymentType
        methodType)).emailsSent = 1
    ∧ createIntentCents 50 / 100 = 50 := by
  have hA : createIntentCents A / 100 = A := by
    unfold createIntentCents
    exact mul_div_cancel_right₀ A (by norm_num)
  refine ⟨?_, rfl, by norm_num [createIntentCents]⟩
  show ps ++ [{ stripePaymentId := some intentId,
                amount := createIntentCents A / 100, currency := currency,
                status := "succeeded",
                paymentType := paymentType.getD "one_time_donation",
                paymentMethod := some methodType, subscriptionId := none }]
    = ps ++ [{ stripePaymentId := some intentId, amount := A,
               currency := currency, status := "succeeded",
               paymentType := paymentType.getD "one_time_donation",
               paymentMethod := some methodType, subscriptionId := none }]
  rw [hA]

end Iyffa
